import Mathlib

/-!
# Group normalisation kernel for XPU: shape parameters and SDK call protocol

A shallow embedding of `phi::GroupNormKernel`
(`paddle/phi/kernels/xpu/group_norm_kernel.cc`).

* `int` values are integers; the only arithmetic the kernel performs on them,
  the `std::multiplies<int>` fold of `std::accumulate`, is reduced to 32 bits
  after every multiplication (`wrapInt32`).
* Reads of `x_dims` and iterator ranges are checked: an out-of-bounds index or
  an ill-formed range yields `none`.
* The vendor SDK is a record of state-passing functions; every call of
  `xpu::cast` and `xpu::group_norm` is appended to a log together with the
  status it returned.
-/

namespace phi

/-! ## Layout and shape parameters (lines 41-57) -/

/-- Modelled from the spec: the enumeration `DataLayout` is declared in
`paddle/common/layout.h`, which is not among the sources. The kernel compares
the parsed layout with `kNCHW` and `kNCDHW` only; the channel-last
enumerators are named, and any further enumerator is `kOther code`. -/
inductive DataLayout where
  | kNHWC
  | kNCHW
  | kNCDHW
  | kNDHWC
  | kOther (code : Nat)
  deriving DecidableEq, Repr

/-- Two's-complement reduction of an integer to the range of a 32-bit `int`. -/
def wrapInt32 (z : Int) : Int := (z + 2147483648) % 4294967296 - 2147483648

/-- The value is representable as a 32-bit signed `int`. -/
def fitsInt32 (z : Int) : Prop := -2147483648 ≤ z ∧ z ≤ 2147483647

instance (z : Int) : Decidable (fitsInt32 z) := by
  unfold fitsInt32; infer_instance

/-- The functor `std::multiplies<int>()`: multiplication of two `int`s. A
product outside the range of `int` is reduced to 32 bits in two's complement,
as the hardware computes it. -/
def multiplies (a b : Int) : Int := wrapInt32 (a * b)

/-- The read `v[i]` of a `std::vector<int>`; `none` when `i` is out of
bounds. -/
def index (v : List Int) (i : Int) : Option Int :=
  if 0 ≤ i then v[i.toNat]? else none

/-- The call `std::accumulate(v.begin() + first, v.begin() + last, init, op)`.
Iterators are offsets from `v.begin()`; the range is well-formed when
`0 ≤ first ≤ last ≤ v.size()`, otherwise the result is `none`. -/
def accumulate (v : List Int) (first last : Int) (init : Int)
    (op : Int → Int → Int) : Option Int :=
  if 0 ≤ first ∧ first ≤ last ∧ last ≤ (v.length : Int) then
    some (((v.drop first.toNat).take (last - first).toNat).foldl op init)
  else none

/-- The shape parameters handed to the vendor kernel. -/
structure ShapeParams where
  N : Int
  channel_first : Bool
  C : Int
  L : Int
  deriving DecidableEq, Repr

/-- The flag `channel_first` (lines 47-48). -/
def isChannelFirst (data_layout : DataLayout) : Bool :=
  data_layout == DataLayout.kNCHW || data_layout == DataLayout.kNCDHW

/-- Lines 46-57 of `GroupNormKernel`: `N`, `channel_first`, `C` and `L` from
`x_dims` (the result of `common::vectorize<int>(x.dims())`) and the parsed
layout. Only the selected arm of each conditional expression is evaluated. -/
def shapeParams (x_dims : List Int) (data_layout : DataLayout) :
    Option ShapeParams :=
  match index x_dims 0 with
  | none => none
  | some N =>
    let channel_first := isChannelFirst data_layout
    match (if channel_first then index x_dims 1
           else index x_dims ((x_dims.length : Int) - 1)) with
    | none => none
    | some C =>
      match (if channel_first then
               accumulate x_dims 2 (x_dims.length : Int) 1 multiplies
             else
               accumulate x_dims 1 ((x_dims.length : Int) - 1) 1 multiplies) with
      | none => none
      | some L => some ⟨N, channel_first, C, L⟩

/-! ## Tensors, buffers and the vendor SDK -/

/-- A device address: `nullptr` or the address of a buffer. -/
inductive Ptr where
  | null
  | addr (a : Nat)
  deriving DecidableEq, Repr

/-- A `float` value, carried by its bit pattern; the kernel performs no
arithmetic on it. -/
structure F32 where
  bits : Nat
  deriving DecidableEq, Repr

/-- The element types the kernel is registered for (lines 120-125). -/
inductive ScalarType where
  | float
  | float16
  deriving DecidableEq, Repr

/-- The constant `std::is_same<T, float>::value`. -/
def is_same_float (T : ScalarType) : Bool :=
  match T with
  | ScalarType.float => true
  | ScalarType.float16 => false

/-- Modelled from the spec: the class `DenseTensor` belongs to the tensor
framework and is not among the sources. The record holds what the kernel
observes of a tensor: `dims` (as `common::vectorize<int>` returns them),
`numel()` and the buffer `data<T>()` returns (for an output, after
`dev_ctx.Alloc`). -/
structure DenseTensor where
  dims : List Int
  numel : Int
  data : Ptr
  deriving DecidableEq, Repr

/-- The arguments of `xpu::group_norm` after the context, in the order of
lines 102-114. -/
structure GroupNormArgs where
  x : Ptr
  y : Ptr
  N : Int
  C : Int
  L : Int
  W : Int
  groups : Int
  epsilon : F32
  scale : Ptr
  bias : Ptr
  mean : Ptr
  var : Ptr
  channel_first : Bool
  deriving DecidableEq, Repr

/-- The optional tensor a cast is made for: line 75 (scale) or line 91
(bias). -/
inductive Aux where
  | scale
  | bias
  deriving DecidableEq, Repr

/-- A call of a status-returning SDK function, with its arguments after the
context. -/
inductive SdkCall where
  | cast (which : Aux) (src : Ptr) (dst : Ptr) (len : Int)
  | group_norm (args : GroupNormArgs)
  deriving DecidableEq, Repr

/-- A call the kernel made and the status the SDK returned for it. -/
structure SdkEvent where
  call : SdkCall
  status : Int
  deriving DecidableEq, Repr

/-- The three places of the source where an SDK function is called. -/
inductive CallSite where
  | castScale
  | castBias
  | groupNorm
  deriving DecidableEq, Repr

/-- The place of the source a logged call comes from. -/
def SdkCall.site (c : SdkCall) : CallSite :=
  match c with
  | SdkCall.cast Aux.scale _ _ _ => CallSite.castScale
  | SdkCall.cast Aux.bias _ _ _ => CallSite.castBias
  | SdkCall.group_norm _ => CallSite.groupNorm

/-- The call is an `xpu::cast`. -/
def SdkCall.isCast (c : SdkCall) : Bool :=
  match c with
  | SdkCall.cast _ _ _ _ => true
  | SdkCall.group_norm _ => false

/-- The vendor SDK as the kernel uses it: `xpu::cast` (lines 75-79),
`xpu::group_norm` (lines 101-114), `RAII_GUARD.alloc_l3_or_gm` (lines 74, 90)
and the status `SUCCESS`. The SDK is closed source, so it is a parameter of
the kernel: each function takes the device state and returns its result with
the next state, and successive calls may answer differently. -/
structure XpuApi (σ : Type) where
  SUCCESS : Int
  alloc_l3_or_gm : σ → Int → Ptr × σ
  cast : σ → Ptr → Ptr → Int → Int × σ
  group_norm : σ → GroupNormArgs → Int × σ

/-- How a run of the kernel ends: it returns, an enforce check throws with
the status and the name of the call, or `x_dims` was accessed outside its
bounds. -/
inductive Outcome where
  | ok
  | enforce_failed (status : Int) (msg : String)
  | invalid_access
  deriving DecidableEq, Repr

/-- The state of a run: the device state, the SDK calls made so far (oldest
first) and the buffers obtained from `RAII_GUARD` as (element count,
address). -/
structure Run (σ : Type) where
  dev : σ
  calls : List SdkEvent
  allocs : List (Int × Ptr)

/-- Modelled from the spec: the macro `PADDLE_ENFORCE_XDNN_SUCCESS` is defined
in `paddle/phi/backends/xpu/enforce_xpu.h`, which is not among the sources.
It raises a fatal error carrying the status when the status is not the SDK's
success code. -/
def PADDLE_ENFORCE_XDNN_SUCCESS (SUCCESS r : Int) (msg : String) :
    Except Outcome Unit :=
  if r = SUCCESS then Except.ok () else Except.error (Outcome.enforce_failed r msg)

/-- Lines 69-83 for `scale`, and the same statements at lines 85-99 for
`bias`: the `float` buffer of an optional tensor. Absent: `nullptr`. Present
with `T = float`: the tensor's buffer. Otherwise a buffer of `numel()` floats
is taken from `RAII_GUARD`, `xpu::cast` is called on `numel()` elements and its
status is enforced. -/
def auxFloatData {σ : Type} (api : XpuApi σ) (T : ScalarType) (which : Aux)
    (t_ptr : Option DenseTensor) (run : Run σ) : Except Outcome Ptr × Run σ :=
  match t_ptr with
  | none => (Except.ok Ptr.null, run)
  | some t =>
    if is_same_float T then (Except.ok t.data, run)
    else
      let fp32 := (api.alloc_l3_or_gm run.dev t.numel).1
      let dev1 := (api.alloc_l3_or_gm run.dev t.numel).2
      let r := (api.cast dev1 t.data fp32 t.numel).1
      let dev2 := (api.cast dev1 t.data fp32 t.numel).2
      let run2 : Run σ :=
        ⟨dev2, run.calls ++ [⟨SdkCall.cast which t.data fp32 t.numel, r⟩],
          run.allocs ++ [(t.numel, fp32)]⟩
      match PADDLE_ENFORCE_XDNN_SUCCESS api.SUCCESS r "cast" with
      | Except.error o => (Except.error o, run2)
      | Except.ok _ => (Except.ok fp32, run2)

/-- The function `GroupNormKernel<T, Context>` (lines 28-116). `dev_ctx` is
the device state on entry, `data_layout` the value `StringToDataLayout`
returned, and `y`, `mean`, `var` the outputs as `dev_ctx.Alloc` left them.
The result is how the run ended and its final state. -/
def GroupNormKernel {σ : Type} (api : XpuApi σ) (T : ScalarType) (dev_ctx : σ)
    (x : DenseTensor) (scale bias : Option DenseTensor) (epsilon : F32)
    (groups : Int) (data_layout : DataLayout) (y mean var : DenseTensor) :
    Outcome × Run σ :=
  let run0 : Run σ := ⟨dev_ctx, [], []⟩
  match shapeParams x.dims data_layout with
  | none => (Outcome.invalid_access, run0)
  | some sp =>
    match auxFloatData api T Aux.scale scale run0 with
    | (Except.error o, run1) => (o, run1)
    | (Except.ok scale_data, run1) =>
      match auxFloatData api T Aux.bias bias run1 with
      | (Except.error o, run2) => (o, run2)
      | (Except.ok bias_data, run2) =>
        let args : GroupNormArgs :=
          ⟨x.data, y.data, sp.N, sp.C, sp.L, 1, groups, epsilon, scale_data,
            bias_data, mean.data, var.data, sp.channel_first⟩
        let r := (api.group_norm run2.dev args).1
        let dev3 := (api.group_norm run2.dev args).2
        let run3 : Run σ :=
          ⟨dev3, run2.calls ++ [⟨SdkCall.group_norm args, r⟩], run2.allocs⟩
        match PADDLE_ENFORCE_XDNN_SUCCESS api.SUCCESS r "group_norm" with
        | Except.error o => (o, run3)
        | Except.ok _ => (Outcome.ok, run3)

/-- The SDK calls `GroupNormKernel` would make if none failed, by place:
a cast of scale when scale is present and `T` is not `float`, a cast of bias
likewise, then `group_norm`. -/
def plannedSites (T : ScalarType) (scale bias : Option DenseTensor) :
    List CallSite :=
  (if scale.isSome && !is_same_float T then [CallSite.castScale] else []) ++
  (if bias.isSome && !is_same_float T then [CallSite.castBias] else []) ++
  [CallSite.groupNorm]

/-- The logged calls of `xpu::cast` made for the given optional tensor. -/
def castsFor (which : Aux) (calls : List SdkEvent) : List SdkEvent :=
  calls.filter (fun e => decide (e.call.site =
    (match which with
     | Aux.scale => CallSite.castScale
     | Aux.bias => CallSite.castBias)))

/-- The number of logged calls of `xpu::cast`. -/
def castCount (calls : List SdkEvent) : Nat :=
  (calls.filter (fun e => e.call.isCast)).length

/-- The number of tensors present among `scale` and `bias`. -/
def presentCount (scale bias : Option DenseTensor) : Nat :=
  (if scale.isSome then 1 else 0) + (if bias.isSome then 1 else 0)

/-! ## A simulated SDK for concrete runs -/

/-- An SDK over a counter of allocations: buffers are handed out at
addresses 1000, 1001, ...; `cast` and `group_norm` return fixed statuses;
success is 0. -/
def simApi (castStatus groupNormStatus : Int) : XpuApi Nat where
  SUCCESS := 0
  alloc_l3_or_gm := fun s _ => (Ptr.addr (1000 + s), s + 1)
  cast := fun s _ _ _ => (castStatus, s)
  group_norm := fun s _ => (groupNormStatus, s)

/-- A tensor with the given dimensions, element count and address. -/
def tensorAt (dims : List Int) (numel : Int) (a : Nat) : DenseTensor :=
  ⟨dims, numel, Ptr.addr a⟩

/-- A rank-4 input of 2 x 4 x 3 x 5 elements (NCHW reading) at address 1. -/
def demoX : DenseTensor := tensorAt [2, 4, 3, 5] 120 1

/-- A per-channel scale of 4 elements at address 2. -/
def demoScale : DenseTensor := tensorAt [4] 4 2

/-- A per-channel bias of 4 elements at address 3. -/
def demoBias : DenseTensor := tensorAt [4] 4 3

/-- The output `y`, allocated at address 4. -/
def demoY : DenseTensor := tensorAt [2, 4, 3, 5] 120 4

/-- The output `mean`, allocated at address 5. -/
def demoMean : DenseTensor := tensorAt [2, 3] 6 5

/-- The output `var`, allocated at address 6. -/
def demoVar : DenseTensor := tensorAt [2, 3] 6 6

/-- A rank-1 input of 3 elements at address 1. -/
def demoRankOne : DenseTensor := tensorAt [3] 3 1

/-! ## Arithmetic of the 32-bit product -/

theorem wrapInt32_of_fits (z : Int) (h : fitsInt32 z) : wrapInt32 z = z := by
  unfold fitsInt32 at h
  unfold wrapInt32
  omega

theorem wrapInt32_mul_left (a d : Int) :
    wrapInt32 (wrapInt32 a * d) = wrapInt32 (a * d) := by
  have h : wrapInt32 a = a - 4294967296 * ((a + 2147483648) / 4294967296) := by
    unfold wrapInt32
    omega
  rw [h]
  unfold wrapInt32
  have e : (a - 4294967296 * ((a + 2147483648) / 4294967296)) * d + 2147483648
      = (a * d + 2147483648) + 4294967296 * (-(((a + 2147483648) / 4294967296) * d)) := by
    ring
  rw [e, Int.add_mul_emod_self_left]

theorem foldl_multiplies (s : List Int) (a : Int) :
    s.foldl multiplies (wrapInt32 a) = wrapInt32 (a * s.prod) := by
  induction s generalizing a with
  | nil => simp
  | cons d s ih =>
    have step : multiplies (wrapInt32 a) d = wrapInt32 (a * d) :=
      wrapInt32_mul_left a d
    simp only [List.foldl_cons, List.prod_cons]
    rw [step, ih, mul_assoc]

theorem foldl_multiplies_one (s : List Int) :
    s.foldl multiplies 1 = wrapInt32 s.prod := by
  have h := foldl_multiplies s 1
  have h1 : wrapInt32 1 = 1 := by decide
  rw [h1, one_mul] at h
  exact h

theorem wrapInt32_eq_sub (z : Int) :
    wrapInt32 z = z - 4294967296 * ((z + 2147483648) / 4294967296) := by
  unfold wrapInt32
  omega

theorem product_eq_of_fits (n c p : Int) (htotal : fitsInt32 (n * c * p))
    (hshape : fitsInt32 (n * c * wrapInt32 p)) :
    n * c * wrapInt32 p = n * c * p := by
  have hw := wrapInt32_eq_sub p
  have hmul : n * c * wrapInt32 p
      = n * c * p - 4294967296 * (n * c * ((p + 2147483648) / 4294967296)) := by
    rw [hw]
    ring
  unfold fitsInt32 at htotal hshape
  generalize n * c * ((p + 2147483648) / 4294967296) = m at hmul
  generalize n * c * wrapInt32 p = B at hmul hshape ⊢
  generalize n * c * p = A at hmul htotal ⊢
  omega

/-! ## The shape computation on channel-first and channel-last lists -/

theorem accumulate_nat (v : List Int) (a b : Nat) (hab : a ≤ b)
    (hb : b ≤ v.length) :
    accumulate v (a : Int) (b : Int) 1 multiplies
      = some (wrapInt32 ((v.drop a).take (b - a)).prod) := by
  unfold accumulate
  have h1 : (0 : Int) ≤ (a : Int) ∧ (a : Int) ≤ (b : Int) ∧ (b : Int) ≤ (v.length : Int) := by
    omega
  have h2 : ((b : Int) - (a : Int)).toNat = b - a := by omega
  rw [if_pos h1, h2, Int.toNat_ofNat, foldl_multiplies_one]

theorem shapeParams_channel_first (n c : Int) (s : List Int) (l : DataLayout)
    (h : isChannelFirst l = true) :
    shapeParams (n :: c :: s) l = some ⟨n, true, c, wrapInt32 s.prod⟩ := by
  have hacc := accumulate_nat (n :: c :: s) 2 (n :: c :: s).length
    (by simp) (le_refl _)
  simp only [Nat.cast_ofNat] at hacc
  unfold shapeParams
  simp only [h, if_true, hacc]
  simp [index]

theorem shapeParams_channel_last (n c : Int) (s : List Int) (l : DataLayout)
    (h : isChannelFirst l = false) :
    shapeParams (n :: (s ++ [c])) l = some ⟨n, false, c, wrapInt32 s.prod⟩ := by
  have hlen : ((n :: (s ++ [c])).length : Int) - 1 = ((s.length + 1 : Nat) : Int) := by
    simp
  have hacc := accumulate_nat (n :: (s ++ [c])) 1 (s.length + 1)
    (by omega) (by simp)
  simp only [Nat.cast_one] at hacc
  have hpos : (0 : Int) ≤ (s.length : Int) + 1 := by omega
  unfold shapeParams
  rw [hlen]
  simp only [h, hacc]
  simp [index, hpos]

theorem exists_cons_cons (v : List Int) (h : 2 ≤ v.length) :
    ∃ n c s, v = n :: c :: s := by
  match v, h with
  | n :: c :: s, _ => exact ⟨n, c, s, rfl⟩

theorem exists_cons_concat (v : List Int) (h : 2 ≤ v.length) :
    ∃ n s c, v = n :: (s ++ [c]) := by
  match v, h with
  | n :: c :: s, _ =>
    rcases List.eq_nil_or_concat (c :: s) with hnil | ⟨s1, c1, hs⟩
    · exact absurd hnil (by simp)
    · exact ⟨n, s1, c1, by rw [hs, List.concat_eq_append]⟩

theorem prod_cons_concat (n c : Int) (s : List Int) :
    (n :: (s ++ [c])).prod = n * c * s.prod := by
  simp only [List.prod_cons, List.prod_append, List.prod_nil, mul_one]
  ring

theorem middle_cons_concat (n c : Int) (s : List Int) :
    ((n :: (s ++ [c])).drop 1).take ((n :: (s ++ [c])).length - 2) = s := by
  simp

theorem last_cons_concat (n c : Int) (s : List Int) :
    (n :: (s ++ [c]))[(n :: (s ++ [c])).length - 1]? = some c := by
  simp

/-! ## Claims about the shape parameters -/

/-- C4 (amended): for every dimension list of rank at least 2 and every parsed
layout, `channel_first` holds exactly for NCHW and NCDHW, `N` is `dims[0]`,
`C` is `dims[1]` when channel-first and the last dimension otherwise, and `L`
is the product of `dims[2..rank-1]` (channel-first) or of `dims[1..rank-2]`
(otherwise) provided that product fits in a 32-bit signed `int`. -/
theorem shapeParams_by_layout (x_dims : List Int) (data_layout : DataLayout)
    (hrank : 2 ≤ x_dims.length) :
    (isChannelFirst data_layout = true ↔
      (data_layout = DataLayout.kNCHW ∨ data_layout = DataLayout.kNCDHW)) ∧
    ∃ sp, shapeParams x_dims data_layout = some sp ∧
      sp.channel_first = isChannelFirst data_layout ∧
      x_dims[0]? = some sp.N ∧
      (sp.channel_first = true →
        x_dims[1]? = some sp.C ∧
        (fitsInt32 (x_dims.drop 2).prod → sp.L = (x_dims.drop 2).prod)) ∧
      (sp.channel_first = false →
        x_dims[x_dims.length - 1]? = some sp.C ∧
        (fitsInt32 ((x_dims.drop 1).take (x_dims.length - 2)).prod →
          sp.L = ((x_dims.drop 1).take (x_dims.length - 2)).prod)) := by
  refine ⟨by simp [isChannelFirst], ?_⟩
  cases hcf : isChannelFirst data_layout with
  | true =>
    obtain ⟨n, c, s, rfl⟩ := exists_cons_cons x_dims hrank
    refine ⟨_, shapeParams_channel_first n c s data_layout hcf, rfl, rfl, ?_, ?_⟩
    · intro _
      exact ⟨by simp, fun hfit => wrapInt32_of_fits _ hfit⟩
    · intro h
      exact absurd h (by simp)
  | false =>
    obtain ⟨n, s, c, rfl⟩ := exists_cons_concat x_dims hrank
    refine ⟨_, shapeParams_channel_last n c s data_layout hcf, rfl, by simp, ?_, ?_⟩
    · intro h
      exact absurd h (by simp)
    · intro _
      refine ⟨last_cons_concat n c s, ?_⟩
      rw [middle_cons_concat]
      exact fun hfit => wrapInt32_of_fits _ hfit

/-- C4, witness: the NDHWC list [2, 3, 5, 7, 11] gives N = 2, C = 11 and
L = 3 * 5 * 7. -/
theorem shapeParams_by_layout_witness :
    2 ≤ ([2, 3, 5, 7, 11] : List Int).length ∧
    shapeParams [2, 3, 5, 7, 11] DataLayout.kNDHWC = some ⟨2, false, 11, 105⟩ ∧
    ((isChannelFirst DataLayout.kNDHWC = true ↔
      (DataLayout.kNDHWC = DataLayout.kNCHW ∨ DataLayout.kNDHWC = DataLayout.kNCDHW)) ∧
    ∃ sp, shapeParams [2, 3, 5, 7, 11] DataLayout.kNDHWC = some sp ∧
      sp.channel_first = isChannelFirst DataLayout.kNDHWC ∧
      ([2, 3, 5, 7, 11] : List Int)[0]? = some sp.N ∧
      (sp.channel_first = true →
        ([2, 3, 5, 7, 11] : List Int)[1]? = some sp.C ∧
        (fitsInt32 (([2, 3, 5, 7, 11] : List Int).drop 2).prod →
          sp.L = (([2, 3, 5, 7, 11] : List Int).drop 2).prod)) ∧
      (sp.channel_first = false →
        ([2, 3, 5, 7, 11] : List Int)[([2, 3, 5, 7, 11] : List Int).length - 1]? = some sp.C ∧
        (fitsInt32 ((([2, 3, 5, 7, 11] : List Int).drop 1).take
            (([2, 3, 5, 7, 11] : List Int).length - 2)).prod →
          sp.L = ((([2, 3, 5, 7, 11] : List Int).drop 1).take
            (([2, 3, 5, 7, 11] : List Int).length - 2)).prod))) :=
  ⟨by decide, by decide,
    shapeParams_by_layout [2, 3, 5, 7, 11] DataLayout.kNDHWC (by decide)⟩

/-- C4, counterexample: for the NCHW list [1, 1, 65536, 65536] of rank 4 the
product of `dims[2..3]` is 2^32, which no `int` holds; the computed `L` is 0. -/
theorem shapeParams_L_not_product :
    2 ≤ ([1, 1, 65536, 65536] : List Int).length ∧
    shapeParams [1, 1, 65536, 65536] DataLayout.kNCHW = some ⟨1, true, 1, 0⟩ ∧
    (([1, 1, 65536, 65536] : List Int).drop 2).prod = 4294967296 ∧
    ¬ ∃ sp, shapeParams [1, 1, 65536, 65536] DataLayout.kNCHW = some sp ∧
      sp.L = (([1, 1, 65536, 65536] : List Int).drop 2).prod := by
  have h : shapeParams [1, 1, 65536, 65536] DataLayout.kNCHW = some ⟨1, true, 1, 0⟩ := by
    decide
  refine ⟨by decide, h, by decide, ?_⟩
  rintro ⟨sp, hsp, hL⟩
  rw [h] at hsp
  cases hsp
  revert hL
  decide

/-- C6: for every dimension list of rank at least 2 and either layout, the
shape parameters satisfy `N * C * L = ` the product of all dimensions (the
element count of `x`, also as `N * C * L * 1`) provided the product
accumulated for `L` fits in a 32-bit signed `int`; the same holds provided
the element count and `N * C * L` both fit. -/
theorem shapeParams_element_count (x_dims : List Int) (data_layout : DataLayout)
    (hrank : 2 ≤ x_dims.length) :
    ∃ sp, shapeParams x_dims data_layout = some sp ∧
      (fitsInt32 (if isChannelFirst data_layout = true
          then (x_dims.drop 2).prod
          else ((x_dims.drop 1).take (x_dims.length - 2)).prod) →
        sp.N * sp.C * sp.L = x_dims.prod ∧
        sp.N * sp.C * sp.L * 1 = x_dims.prod) ∧
      (fitsInt32 x_dims.prod → fitsInt32 (sp.N * sp.C * sp.L) →
        sp.N * sp.C * sp.L = x_dims.prod ∧
        sp.N * sp.C * sp.L * 1 = x_dims.prod) := by
  cases hcf : isChannelFirst data_layout with
  | true =>
    obtain ⟨n, c, s, rfl⟩ := exists_cons_cons x_dims hrank
    refine ⟨_, shapeParams_channel_first n c s data_layout hcf, ?_, ?_⟩
    · intro hfit
      simp only [if_true, List.drop_succ_cons, List.drop_zero] at hfit
      have hL := wrapInt32_of_fits _ hfit
      simp only [hL, List.prod_cons, mul_one, and_self]
      ring
    · intro htotal hncl
      have h := product_eq_of_fits n c s.prod
        (by simpa only [List.prod_cons, mul_assoc] using htotal) hncl
      simp only [List.prod_cons, mul_one, and_self]
      rw [h]
      ring
  | false =>
    obtain ⟨n, s, c, rfl⟩ := exists_cons_concat x_dims hrank
    refine ⟨_, shapeParams_channel_last n c s data_layout hcf, ?_, ?_⟩
    · intro hfit
      rw [middle_cons_concat] at hfit
      simp only [Bool.false_eq_true, if_false] at hfit
      have hL := wrapInt32_of_fits _ hfit
      simp only [hL, prod_cons_concat, mul_one, and_self]
    · intro htotal hncl
      have h := product_eq_of_fits n c s.prod
        (by simpa only [prod_cons_concat] using htotal) hncl
      simp only [prod_cons_concat, mul_one, and_self]
      exact h

/-- C6, witness: the NHWC list [2, 3, 5, 7] has 210 elements and
`N * C * L = 2 * 7 * 15`. -/
theorem shapeParams_element_count_witness :
    shapeParams [2, 3, 5, 7] DataLayout.kNHWC = some ⟨2, false, 7, 15⟩ ∧
    ([2, 3, 5, 7] : List Int).prod = 210 ∧
    ∃ sp, shapeParams [2, 3, 5, 7] DataLayout.kNHWC = some sp ∧
      sp.N * sp.C * sp.L = ([2, 3, 5, 7] : List Int).prod := by
  refine ⟨by decide, by decide, ?_⟩
  obtain ⟨sp, hsp, hL, _⟩ :=
    shapeParams_element_count [2, 3, 5, 7] DataLayout.kNHWC (by decide)
  exact ⟨sp, hsp, (hL (by decide)).1⟩

/-- C7 (amended): for every n, c and list s of spatial extents, a
channel-first layout on `[n, c] ++ s` and a channel-last layout on
`[n] ++ s ++ [c]` give the same `N`, `C` and `L`, with `N = n`, `C = c`, and
`L` the product of s provided that product fits in a 32-bit signed `int`. -/
theorem shapeParams_layout_independent (n c : Int) (s : List Int)
    (first last : DataLayout) (hfirst : isChannelFirst first = true)
    (hlast : isChannelFirst last = false) :
    ∃ L, shapeParams ([n, c] ++ s) first = some ⟨n, true, c, L⟩ ∧
      shapeParams ([n] ++ s ++ [c]) last = some ⟨n, false, c, L⟩ ∧
      (fitsInt32 s.prod → L = s.prod) :=
  ⟨wrapInt32 s.prod, shapeParams_channel_first n c s first hfirst,
    shapeParams_channel_last n c s last hlast,
    fun hfit => wrapInt32_of_fits _ hfit⟩

/-- C7, witness: NCDHW on [2, 11, 3, 5, 7] and NDHWC on [2, 3, 5, 7, 11]. -/
theorem shapeParams_layout_independent_witness :
    ∃ L, shapeParams ([2, 11] ++ [3, 5, 7]) DataLayout.kNCDHW = some ⟨2, true, 11, L⟩ ∧
      shapeParams ([2] ++ [3, 5, 7] ++ [11]) DataLayout.kNDHWC = some ⟨2, false, 11, L⟩ ∧
      (fitsInt32 ([3, 5, 7] : List Int).prod → L = ([3, 5, 7] : List Int).prod) :=
  shapeParams_layout_independent 2 11 [3, 5, 7] DataLayout.kNCDHW DataLayout.kNDHWC
    (by decide) (by decide)

/-- C7, counterexample: with n = 1, c = 1 and s = [65536, 65536] the product
of s is 2^32; both layouts compute the triple (1, 1, 0), not (1, 1, 2^32). -/
theorem shapeParams_triple_not_product :
    shapeParams ([1, 1] ++ [65536, 65536]) DataLayout.kNCHW
      = some ⟨1, true, 1, 0⟩ ∧
    shapeParams ([1] ++ [65536, 65536] ++ [1]) DataLayout.kNHWC
      = some ⟨1, false, 1, 0⟩ ∧
    ([65536, 65536] : List Int).prod = 4294967296 ∧
    ¬ ∃ sp, shapeParams ([1] ++ [65536, 65536] ++ [1]) DataLayout.kNHWC = some sp ∧
      (sp.N, sp.C, sp.L) = (1, 1, ([65536, 65536] : List Int).prod) := by
  have h : shapeParams ([1] ++ [65536, 65536] ++ [1]) DataLayout.kNHWC
      = some ⟨1, false, 1, 0⟩ := by decide
  refine ⟨by decide, h, by decide, ?_⟩
  rintro ⟨sp, hsp, htriple⟩
  rw [h] at hsp
  cases hsp
  revert htriple
  decide

/-- C8: for every dimension list of rank at least 2 the reads `x_dims[0]`,
`x_dims[1]` and `x_dims[rank-1]` are in bounds and both accumulate ranges are
well-formed, so the shape computation returns a value under every layout; at
rank 2 both ranges are empty and `L = 1`, `C = dims[1]` in both layouts. At
rank 1 under a channel-last layout the range `begin+1 .. end-1` is ill-formed
and the computation has no value; it has none for any list of rank below
2. -/
theorem shapeParams_defined :
    (∀ (x_dims : List Int) (data_layout : DataLayout), 2 ≤ x_dims.length →
      (∃ v, index x_dims 0 = some v) ∧
      (∃ v, index x_dims 1 = some v) ∧
      (∃ v, index x_dims ((x_dims.length : Int) - 1) = some v) ∧
      (∃ v, accumulate x_dims 2 (x_dims.length : Int) 1 multiplies = some v) ∧
      (∃ v, accumulate x_dims 1 ((x_dims.length : Int) - 1) 1 multiplies = some v) ∧
      (∃ sp, shapeParams x_dims data_layout = some sp) ∧
      (x_dims.length = 2 →
        (2 : Int) = (x_dims.length : Int) ∧
        (1 : Int) = (x_dims.length : Int) - 1 ∧
        accumulate x_dims 2 (x_dims.length : Int) 1 multiplies = some 1 ∧
        accumulate x_dims 1 ((x_dims.length : Int) - 1) 1 multiplies = some 1 ∧
        ∃ sp, shapeParams x_dims data_layout = some sp ∧ sp.L = 1 ∧
          x_dims[1]? = some sp.C)) ∧
    (∀ (d : Int) (data_layout : DataLayout), isChannelFirst data_layout = false →
      accumulate [d] 1 (([d].length : Int) - 1) 1 multiplies = none ∧
      shapeParams [d] data_layout = none) ∧
    (∀ (x_dims : List Int) (data_layout : DataLayout), x_dims.length < 2 →
      shapeParams x_dims data_layout = none) := by
  refine ⟨?_, ?_, ?_⟩
  · intro x_dims data_layout hrank
    have hlen : (x_dims.length : Int) - 1 = ((x_dims.length - 1 : Nat) : Int) := by
      omega
    have hA := accumulate_nat x_dims 2 x_dims.length hrank (le_refl _)
    have hB := accumulate_nat x_dims 1 (x_dims.length - 1) (by omega) (by omega)
    simp only [Nat.cast_ofNat, Nat.cast_one] at hA hB
    have hsp : ∃ sp, shapeParams x_dims data_layout = some sp := by
      cases hcf : isChannelFirst data_layout with
      | true =>
        obtain ⟨n, c, s, rfl⟩ := exists_cons_cons x_dims hrank
        exact ⟨_, shapeParams_channel_first n c s data_layout hcf⟩
      | false =>
        obtain ⟨n, s, c, rfl⟩ := exists_cons_concat x_dims hrank
        exact ⟨_, shapeParams_channel_last n c s data_layout hcf⟩
    refine ⟨?_, ?_, ?_, ⟨_, hA⟩, ⟨_, hlen ▸ hB⟩, hsp, ?_⟩
    · obtain ⟨n, c, s, rfl⟩ := exists_cons_cons x_dims hrank
      exact ⟨n, by simp [index]⟩
    · obtain ⟨n, c, s, rfl⟩ := exists_cons_cons x_dims hrank
      exact ⟨c, by simp [index]⟩
    · obtain ⟨n, s, c, rfl⟩ := exists_cons_concat x_dims hrank
      refine ⟨c, ?_⟩
      have hpos : (0 : Int) ≤ (s.length : Int) + 1 := by omega
      have hnat : ((s.length : Int) + 1).toNat = s.length + 1 := by omega
      simp [index, hpos, hnat]
    · intro h2
      match x_dims, h2 with
      | [n, c], _ =>
        have h1 : wrapInt32 1 = 1 := by decide
        refine ⟨by simp, by simp, by simp [accumulate], by simp [accumulate], ?_⟩
        cases hcf : isChannelFirst data_layout with
        | true =>
          have h := shapeParams_channel_first n c [] data_layout hcf
          rw [List.prod_nil, h1] at h
          exact ⟨_, h, rfl, by simp⟩
        | false =>
          have h := shapeParams_channel_last n c [] data_layout hcf
          rw [List.prod_nil, h1] at h
          exact ⟨_, h, rfl, by simp⟩
  · intro d data_layout hcf
    have hacc : accumulate [d] 1 (([d].length : Int) - 1) 1 multiplies = none := by
      simp [accumulate]
    refine ⟨hacc, ?_⟩
    unfold shapeParams
    simp only [hcf, hacc]
    simp [index]
  · intro x_dims data_layout hlt
    match x_dims, hlt with
    | [], _ => simp [shapeParams, index]
    | [d], _ =>
      cases hcf : isChannelFirst data_layout <;>
        simp [shapeParams, index, accumulate, hcf]

/-- C8, witness: the rank-2 list [6, 9] under NCHW. -/
theorem shapeParams_defined_witness :
    shapeParams [6, 9] DataLayout.kNCHW = some ⟨6, true, 9, 1⟩ ∧
    shapeParams [6, 9] DataLayout.kNHWC = some ⟨6, false, 9, 1⟩ ∧
    (∃ sp, shapeParams [6, 9] DataLayout.kNCHW = some sp) ∧
    shapeParams [6] DataLayout.kNHWC = none :=
  ⟨by decide, by decide,
    (shapeParams_defined.1 [6, 9] DataLayout.kNCHW (by decide)).2.2.2.2.2.1,
    (shapeParams_defined.2.1 6 DataLayout.kNHWC (by decide)).2⟩

/-! ## The SDK call protocol of the kernel -/

theorem no_call_after_failure (l : List SdkEvent) (success : Int)
    (h : ∀ e ∈ l.dropLast, e.status = success) :
    ∀ pre e post, l = pre ++ e :: post → e.status ≠ success → post = [] := by
  intro pre e post hl hne
  by_contra hpost
  apply hne
  apply h
  rw [hl, List.dropLast_append_of_ne_nil _ (by simp), List.dropLast_cons_of_ne_nil hpost]
  simp


theorem enforce_match {α : Type} (success r : Int) (msg : String)
    (f : Outcome → α) (g : α) :
    (match PADDLE_ENFORCE_XDNN_SUCCESS success r msg with
      | Except.error o => f o
      | Except.ok _ => g)
      = if r = success then g else f (Outcome.enforce_failed r msg) := by
  unfold PADDLE_ENFORCE_XDNN_SUCCESS
  split_ifs <;> rfl

theorem shapeParams_some_of_rank (x_dims : List Int) (data_layout : DataLayout)
    (hrank : 2 ≤ x_dims.length) : ∃ sp, shapeParams x_dims data_layout = some sp := by
  cases hcf : isChannelFirst data_layout with
  | true =>
    obtain ⟨n, c, s, rfl⟩ := exists_cons_cons x_dims hrank
    exact ⟨_, shapeParams_channel_first n c s data_layout hcf⟩
  | false =>
    obtain ⟨n, s, c, rfl⟩ := exists_cons_concat x_dims hrank
    exact ⟨_, shapeParams_channel_last n c s data_layout hcf⟩

theorem shapeParams_some_fields (x_dims : List Int) (data_layout : DataLayout)
    (sp : ShapeParams) (h : shapeParams x_dims data_layout = some sp) :
    x_dims[0]? = some sp.N ∧ sp.channel_first = isChannelFirst data_layout := by
  unfold shapeParams at h
  cases hN : index x_dims 0 with
  | none => simp [hN] at h
  | some N =>
    simp only [hN] at h
    split at h
    · exact absurd h (by simp)
    · split at h
      · exact absurd h (by simp)
      · simp only [Option.some.injEq] at h
        subst h
        refine ⟨?_, rfl⟩
        simpa [index] using hN

set_option maxHeartbeats 1600000 in
theorem group_norm_event_args {σ : Type} (api : XpuApi σ) (T : ScalarType)
    (dev_ctx : σ) (x : DenseTensor) (scale bias : Option DenseTensor)
    (epsilon : F32) (groups : Int) (data_layout : DataLayout)
    (y mean var : DenseTensor) :
    ∀ e ∈ (GroupNormKernel api T dev_ctx x scale bias epsilon groups
      data_layout y mean var).2.calls, ∀ a, e.call = SdkCall.group_norm a →
    ∃ sp, shapeParams x.dims data_layout = some sp ∧
      a.x = x.data ∧ a.y = y.data ∧ a.N = sp.N ∧ a.C = sp.C ∧ a.L = sp.L ∧
      a.W = 1 ∧ a.groups = groups ∧ a.epsilon = epsilon ∧
      a.mean = mean.data ∧ a.var = var.data ∧
      a.channel_first = sp.channel_first := by
  unfold GroupNormKernel
  cases hsp : shapeParams x.dims data_layout <;> cases scale <;> cases bias <;>
    cases T <;>
    simp only [auxFloatData, enforce_match, is_same_float] <;>
    (try split_ifs) <;> (try simp only [enforce_match]) <;>
    (try split_ifs) <;> (try simp only [enforce_match]) <;>
    (try split_ifs) <;>
    simp

set_option maxHeartbeats 1600000 in
theorem group_norm_event_scale {σ : Type} (api : XpuApi σ) (T : ScalarType)
    (dev_ctx : σ) (x : DenseTensor) (scale bias : Option DenseTensor)
    (epsilon : F32) (groups : Int) (data_layout : DataLayout)
    (y mean var : DenseTensor) :
    ∀ e ∈ (GroupNormKernel api T dev_ctx x scale bias epsilon groups
      data_layout y mean var).2.calls, ∀ a, e.call = SdkCall.group_norm a →
    (scale = none → a.scale = Ptr.null) ∧
    (∀ t, scale = some t → is_same_float T = true → a.scale = t.data) ∧
    (∀ t, scale = some t → is_same_float T = false →
      castsFor Aux.scale (GroupNormKernel api T dev_ctx x scale bias epsilon
          groups data_layout y mean var).2.calls
        = [⟨SdkCall.cast Aux.scale t.data a.scale t.numel, api.SUCCESS⟩] ∧
      (t.numel, a.scale) ∈ (GroupNormKernel api T dev_ctx x scale bias epsilon
          groups data_layout y mean var).2.allocs) := by
  unfold GroupNormKernel
  cases hsp : shapeParams x.dims data_layout <;> cases scale <;> cases bias <;>
    cases T <;>
    simp only [auxFloatData, enforce_match, is_same_float] <;>
    (try split_ifs) <;> (try simp only [enforce_match]) <;>
    (try split_ifs) <;> (try simp only [enforce_match]) <;>
    (try split_ifs) <;>
    simp_all [castsFor, SdkCall.site]

set_option maxHeartbeats 1600000 in
theorem group_norm_event_bias {σ : Type} (api : XpuApi σ) (T : ScalarType)
    (dev_ctx : σ) (x : DenseTensor) (scale bias : Option DenseTensor)
    (epsilon : F32) (groups : Int) (data_layout : DataLayout)
    (y mean var : DenseTensor) :
    ∀ e ∈ (GroupNormKernel api T dev_ctx x scale bias epsilon groups
      data_layout y mean var).2.calls, ∀ a, e.call = SdkCall.group_norm a →
    (bias = none → a.bias = Ptr.null) ∧
    (∀ t, bias = some t → is_same_float T = true → a.bias = t.data) ∧
    (∀ t, bias = some t → is_same_float T = false →
      castsFor Aux.bias (GroupNormKernel api T dev_ctx x scale bias epsilon groups
      data_layout y mean var).2.calls
        = [⟨SdkCall.cast Aux.bias t.data a.bias t.numel, api.SUCCESS⟩] ∧
      (t.numel, a.bias) ∈ (GroupNormKernel api T dev_ctx x scale bias epsilon groups
      data_layout y mean var).2.allocs) := by
  unfold GroupNormKernel
  cases hsp : shapeParams x.dims data_layout <;> cases scale <;> cases bias <;>
    cases T <;>
    simp only [auxFloatData, enforce_match, is_same_float] <;>
    (try split_ifs) <;> (try simp only [enforce_match]) <;>
    (try split_ifs) <;> (try simp only [enforce_match]) <;>
    (try split_ifs) <;>
    simp_all [castsFor, SdkCall.site]

set_option maxHeartbeats 1600000 in
theorem group_norm_event_castCount {σ : Type} (api : XpuApi σ) (T : ScalarType)
    (dev_ctx : σ) (x : DenseTensor) (scale bias : Option DenseTensor)
    (epsilon : F32) (groups : Int) (data_layout : DataLayout)
    (y mean var : DenseTensor) :
    ∀ e ∈ (GroupNormKernel api T dev_ctx x scale bias epsilon groups
      data_layout y mean var).2.calls, ∀ a, e.call = SdkCall.group_norm a →
    castCount (GroupNormKernel api T dev_ctx x scale bias epsilon groups
      data_layout y mean var).2.calls
      = if is_same_float T = true then 0 else presentCount scale bias := by
  unfold GroupNormKernel
  cases hsp : shapeParams x.dims data_layout <;> cases scale <;> cases bias <;>
    cases T <;>
    simp only [auxFloatData, enforce_match, is_same_float] <;>
    (try split_ifs) <;> (try simp only [enforce_match]) <;>
    (try split_ifs) <;> (try simp only [enforce_match]) <;>
    (try split_ifs) <;>
    simp_all [castCount, presentCount, SdkCall.isCast]

set_option maxHeartbeats 1600000 in
theorem casts_only_when_needed {σ : Type} (api : XpuApi σ) (T : ScalarType)
    (dev_ctx : σ) (x : DenseTensor) (scale bias : Option DenseTensor)
    (epsilon : F32) (groups : Int) (data_layout : DataLayout)
    (y mean var : DenseTensor) :
    ((scale = none ∨ is_same_float T = true) →
      castsFor Aux.scale (GroupNormKernel api T dev_ctx x scale bias epsilon groups
      data_layout y mean var).2.calls = []) ∧
    ((bias = none ∨ is_same_float T = true) →
      castsFor Aux.bias (GroupNormKernel api T dev_ctx x scale bias epsilon groups
      data_layout y mean var).2.calls = []) ∧
    (is_same_float T = true → castCount (GroupNormKernel api T dev_ctx x scale bias epsilon groups
      data_layout y mean var).2.calls = 0) := by
  refine ⟨?_, ?_, ?_⟩ <;>
  · unfold GroupNormKernel
    cases hsp : shapeParams x.dims data_layout <;> cases scale <;> cases bias <;>
      cases T <;>
      simp only [auxFloatData, enforce_match, is_same_float] <;>
      (try split_ifs) <;> (try simp only [enforce_match]) <;>
      (try split_ifs) <;> (try simp only [enforce_match]) <;>
      (try split_ifs) <;>
      simp_all [castsFor, castCount, SdkCall.site, SdkCall.isCast]

set_option maxHeartbeats 1600000 in
theorem casts_at_most_once {σ : Type} (api : XpuApi σ) (T : ScalarType)
    (dev_ctx : σ) (x : DenseTensor) (scale bias : Option DenseTensor)
    (epsilon : F32) (groups : Int) (data_layout : DataLayout)
    (y mean var : DenseTensor) :
    (castsFor Aux.scale (GroupNormKernel api T dev_ctx x scale bias epsilon groups
      data_layout y mean var).2.calls).length ≤ 1 ∧
    (castsFor Aux.bias (GroupNormKernel api T dev_ctx x scale bias epsilon groups
      data_layout y mean var).2.calls).length ≤ 1 := by
  refine ⟨?_, ?_⟩ <;>
  · unfold GroupNormKernel
    cases hsp : shapeParams x.dims data_layout <;> cases scale <;> cases bias <;>
      cases T <;>
      simp only [auxFloatData, enforce_match, is_same_float] <;>
      (try split_ifs) <;> (try simp only [enforce_match]) <;>
      (try split_ifs) <;> (try simp only [enforce_match]) <;>
      (try split_ifs) <;>
      simp_all [castsFor, SdkCall.site]

set_option maxHeartbeats 1600000 in
theorem group_norm_reached {σ : Type} (api : XpuApi σ) (T : ScalarType)
    (dev_ctx : σ) (x : DenseTensor) (scale bias : Option DenseTensor)
    (epsilon : F32) (groups : Int) (data_layout : DataLayout)
    (y mean var : DenseTensor)
    (hrank : 2 ≤ x.dims.length)
    (hcasts : ∀ e ∈ (GroupNormKernel api T dev_ctx x scale bias epsilon groups
      data_layout y mean var).2.calls, e.call.isCast = true → e.status = api.SUCCESS) :
    ∃ e ∈ (GroupNormKernel api T dev_ctx x scale bias epsilon groups
      data_layout y mean var).2.calls, ∃ a, e.call = SdkCall.group_norm a := by
  obtain ⟨sp, hsp⟩ := shapeParams_some_of_rank x.dims data_layout hrank
  revert hcasts
  unfold GroupNormKernel
  rw [hsp]
  cases scale <;> cases bias <;> cases T <;>
    simp only [auxFloatData, enforce_match, is_same_float] <;>
    (try split_ifs) <;> (try simp only [enforce_match]) <;>
    (try split_ifs) <;> (try simp only [enforce_match]) <;>
    (try split_ifs) <;>
    simp_all [SdkCall.isCast]

/-! ## Claims about the SDK calls -/

set_option maxHeartbeats 1600000 in
/-- C1 (amended): the kernel ends in a fatal enforce error exactly when one of
the SDK calls it made returned a status other than success, and the error
carries the status of the last call made; for every input whose `x` has rank
at least 2 and for which every SDK call made reported success, the kernel
completes normally. -/
theorem GroupNormKernel_fatal_iff {σ : Type} (api : XpuApi σ) (T : ScalarType)
    (dev_ctx : σ) (x : DenseTensor) (scale bias : Option DenseTensor)
    (epsilon : F32) (groups : Int) (data_layout : DataLayout)
    (y mean var : DenseTensor) :
    ((∃ status msg, (GroupNormKernel api T dev_ctx x scale bias epsilon groups
          data_layout y mean var).1 = Outcome.enforce_failed status msg) ↔
      (∃ e ∈ (GroupNormKernel api T dev_ctx x scale bias epsilon groups
          data_layout y mean var).2.calls, e.status ≠ api.SUCCESS)) ∧
    (∀ status msg, (GroupNormKernel api T dev_ctx x scale bias epsilon groups
          data_layout y mean var).1 = Outcome.enforce_failed status msg →
      status ≠ api.SUCCESS ∧
      ∃ e, (GroupNormKernel api T dev_ctx x scale bias epsilon groups
          data_layout y mean var).2.calls.getLast? = some e ∧ e.status = status) ∧
    (2 ≤ x.dims.length →
      (∀ e ∈ (GroupNormKernel api T dev_ctx x scale bias epsilon groups
          data_layout y mean var).2.calls, e.status = api.SUCCESS) →
      (GroupNormKernel api T dev_ctx x scale bias epsilon groups
          data_layout y mean var).1 = Outcome.ok) := by
  refine ⟨?_, ?_, ?_⟩
  · unfold GroupNormKernel
    cases hsp : shapeParams x.dims data_layout <;> cases scale <;> cases bias <;>
      cases T <;>
      simp only [auxFloatData, enforce_match, is_same_float] <;>
      (try split_ifs) <;> (try simp only [enforce_match]) <;>
      (try split_ifs) <;> (try simp only [enforce_match]) <;>
      (try split_ifs) <;>
      simp_all
  · unfold GroupNormKernel
    cases hsp : shapeParams x.dims data_layout <;> cases scale <;> cases bias <;>
      cases T <;>
      simp only [auxFloatData, enforce_match, is_same_float] <;>
      (try split_ifs) <;> (try simp only [enforce_match]) <;>
      (try split_ifs) <;> (try simp only [enforce_match]) <;>
      (try split_ifs) <;>
      simp_all
  · intro hrank
    obtain ⟨sp, hsp⟩ := shapeParams_some_of_rank x.dims data_layout hrank
    unfold GroupNormKernel
    rw [hsp]
    cases scale <;> cases bias <;> cases T <;>
      simp only [auxFloatData, enforce_match, is_same_float] <;>
      (try split_ifs) <;> (try simp only [enforce_match]) <;>
      (try split_ifs) <;> (try simp only [enforce_match]) <;>
      (try split_ifs) <;>
      simp_all

/-- C1, witness: on the rank-4 half-precision example with an SDK that always
reports success, every call made succeeded and the kernel completes
normally. -/
theorem GroupNormKernel_fatal_iff_witness :
    2 ≤ demoX.dims.length ∧
    (∀ e ∈ (GroupNormKernel (simApi 0 0) ScalarType.float16 0 demoX (some demoScale)
        (some demoBias) ⟨7⟩ 3 DataLayout.kNCHW demoY demoMean demoVar).2.calls, e.status = (simApi 0 0).SUCCESS) ∧
    (GroupNormKernel (simApi 0 0) ScalarType.float16 0 demoX (some demoScale)
        (some demoBias) ⟨7⟩ 3 DataLayout.kNCHW demoY demoMean demoVar).1 = Outcome.ok :=
  ⟨by decide, by decide,
    (GroupNormKernel_fatal_iff (simApi 0 0) ScalarType.float16 0 demoX
      (some demoScale) (some demoBias) ⟨7⟩ 3 DataLayout.kNCHW demoY demoMean
      demoVar).2.2 (by decide) (by decide)⟩

/-- C1, counterexample: for a rank-1 `x` under NHWC the kernel makes no SDK
call, so every call made reported success, yet the run does not complete
normally: the range `begin+1 .. end-1` of the accumulate for `L` is
ill-formed. -/
theorem GroupNormKernel_rank_one_not_ok :
    (GroupNormKernel (simApi 0 0) ScalarType.float 0 demoRankOne none none
        ⟨7⟩ 1 DataLayout.kNHWC demoRankOne demoMean demoVar).2.calls = [] ∧
    ¬ ((∀ e ∈ (GroupNormKernel (simApi 0 0) ScalarType.float 0 demoRankOne none none
        ⟨7⟩ 1 DataLayout.kNHWC demoRankOne demoMean demoVar).2.calls, e.status = (simApi 0 0).SUCCESS) →
      (GroupNormKernel (simApi 0 0) ScalarType.float 0 demoRankOne none none
        ⟨7⟩ 1 DataLayout.kNHWC demoRankOne demoMean demoVar).1 = Outcome.ok) := by
  decide

/-- C2: for every input, the places of the SDK calls made form a beginning of
[cast of scale if needed, cast of bias if needed, group_norm] in that order,
no place occurs twice (no retry), and a call that returned a status other
than success is the last call of the run: nothing is called after a failed
cast or a failed group_norm. -/
theorem GroupNormKernel_call_order {σ : Type} (api : XpuApi σ) (T : ScalarType)
    (dev_ctx : σ) (x : DenseTensor) (scale bias : Option DenseTensor)
    (epsilon : F32) (groups : Int) (data_layout : DataLayout)
    (y mean var : DenseTensor) :
    ((GroupNormKernel api T dev_ctx x scale bias epsilon groups data_layout
        y mean var).2.calls.map (fun e => e.call.site)
      <+: plannedSites T scale bias) ∧
    ((GroupNormKernel api T dev_ctx x scale bias epsilon groups data_layout
        y mean var).2.calls.map (fun e => e.call.site)).Nodup ∧
    (∀ pre e post,
      (GroupNormKernel api T dev_ctx x scale bias epsilon groups data_layout
        y mean var).2.calls = pre ++ e :: post →
      e.status ≠ api.SUCCESS → post = []) := by
  refine ⟨?_, ?_, no_call_after_failure _ _ ?_⟩ <;>
  · unfold GroupNormKernel
    cases hsp : shapeParams x.dims data_layout <;> cases scale <;> cases bias <;>
      cases T <;>
      simp only [auxFloatData, enforce_match, is_same_float, plannedSites,
        Option.isSome_none, Option.isSome_some, Bool.not_true, Bool.not_false,
        Bool.and_true, Bool.and_false, Bool.false_eq_true, if_true, if_false] <;>
      (try split_ifs) <;> (try simp only [enforce_match]) <;>
      (try split_ifs) <;> (try simp only [enforce_match]) <;>
      (try split_ifs) <;>
      simp_all [SdkCall.site]

/-- C2, witness: when the SDK answers the cast of scale with status 1, that
cast is the only call made, the first of the three that were due. -/
theorem GroupNormKernel_call_order_witness :
    (GroupNormKernel (simApi 1 0) ScalarType.float16 0 demoX (some demoScale)
        (some demoBias) ⟨7⟩ 3 DataLayout.kNCHW demoY demoMean demoVar).2.calls.map (fun e => e.call.site) = [CallSite.castScale] ∧
    plannedSites ScalarType.float16 (some demoScale) (some demoBias)
      = [CallSite.castScale, CallSite.castBias, CallSite.groupNorm] ∧
    ((GroupNormKernel (simApi 1 0) ScalarType.float16 0 demoX (some demoScale)
        (some demoBias) ⟨7⟩ 3 DataLayout.kNCHW demoY demoMean demoVar).2.calls.map (fun e => e.call.site)
      <+: plannedSites ScalarType.float16 (some demoScale) (some demoBias)) :=
  ⟨by decide, by decide,
    (GroupNormKernel_call_order (simApi 1 0) ScalarType.float16 0 demoX
      (some demoScale) (some demoBias) ⟨7⟩ 3 DataLayout.kNCHW demoY demoMean
      demoVar).1⟩

/-- C3: whenever the kernel calls `group_norm`, the arguments are the buffers
of `x` and `y`, `N = x_dims[0]`, the computed `C` and `L`, the constant 1,
the caller's `groups` and `epsilon` unchanged, the scale and bias buffers
(null when absent, the tensor's own buffer when `T` is `float`, otherwise the
destination of the successful cast), the buffers of `mean` and `var`, and
`channel_first`. No value of `groups` or `epsilon` prevents the call: with
rank at least 2 and all casts successful, `group_norm` is called with them. -/
theorem GroupNormKernel_group_norm_arguments {σ : Type} (api : XpuApi σ)
    (T : ScalarType) (dev_ctx : σ) (x : DenseTensor)
    (scale bias : Option DenseTensor) (epsilon : F32) (groups : Int)
    (data_layout : DataLayout) (y mean var : DenseTensor) :
    (∀ e ∈ (GroupNormKernel api T dev_ctx x scale bias epsilon groups
        data_layout y mean var).2.calls, ∀ a, e.call = SdkCall.group_norm a →
      ∃ sp, shapeParams x.dims data_layout = some sp ∧
        x.dims[0]? = some sp.N ∧
        a.x = x.data ∧ a.y = y.data ∧
        a.N = sp.N ∧ a.C = sp.C ∧ a.L = sp.L ∧ a.W = 1 ∧
        a.groups = groups ∧ a.epsilon = epsilon ∧
        (scale = none → a.scale = Ptr.null) ∧
        (∀ t, scale = some t → is_same_float T = true → a.scale = t.data) ∧
        (∀ t, scale = some t → is_same_float T = false →
          ⟨SdkCall.cast Aux.scale t.data a.scale t.numel, api.SUCCESS⟩
            ∈ (GroupNormKernel api T dev_ctx x scale bias epsilon groups
        data_layout y mean var).2.calls) ∧
        (bias = none → a.bias = Ptr.null) ∧
        (∀ t, bias = some t → is_same_float T = true → a.bias = t.data) ∧
        (∀ t, bias = some t → is_same_float T = false →
          ⟨SdkCall.cast Aux.bias t.data a.bias t.numel, api.SUCCESS⟩
            ∈ (GroupNormKernel api T dev_ctx x scale bias epsilon groups
        data_layout y mean var).2.calls) ∧
        a.mean = mean.data ∧ a.var = var.data ∧
        a.channel_first = isChannelFirst data_layout) ∧
    (2 ≤ x.dims.length →
      (∀ e ∈ (GroupNormKernel api T dev_ctx x scale bias epsilon groups
        data_layout y mean var).2.calls, e.call.isCast = true → e.status = api.SUCCESS) →
      ∃ e ∈ (GroupNormKernel api T dev_ctx x scale bias epsilon groups
        data_layout y mean var).2.calls, ∃ a, e.call = SdkCall.group_norm a ∧
        a.groups = groups ∧ a.epsilon = epsilon) := by
  constructor
  · intro e he a ha
    obtain ⟨sp, hsp, hx, hy, hN, hC, hL, hW, hg, heps, hmean, hvar, hcf⟩ :=
      group_norm_event_args api T dev_ctx x scale bias epsilon groups
        data_layout y mean var e he a ha
    obtain ⟨hs0, hs1, hs2⟩ :=
      group_norm_event_scale api T dev_ctx x scale bias epsilon groups
        data_layout y mean var e he a ha
    obtain ⟨hb0, hb1, hb2⟩ :=
      group_norm_event_bias api T dev_ctx x scale bias epsilon groups
        data_layout y mean var e he a ha
    obtain ⟨hN0, hflag⟩ := shapeParams_some_fields x.dims data_layout sp hsp
    refine ⟨sp, hsp, hN0, hx, hy, hN, hC, hL, hW, hg, heps, hs0, hs1, ?_,
      hb0, hb1, ?_, hmean, hvar, hcf.trans hflag⟩
    · intro t ht hT
      have hmem : (⟨SdkCall.cast Aux.scale t.data a.scale t.numel, api.SUCCESS⟩ : SdkEvent)
          ∈ castsFor Aux.scale (GroupNormKernel api T dev_ctx x scale bias epsilon groups
        data_layout y mean var).2.calls := by
        rw [(hs2 t ht hT).1]
        exact List.mem_singleton.mpr rfl
      exact List.mem_of_mem_filter hmem
    · intro t ht hT
      have hmem : (⟨SdkCall.cast Aux.bias t.data a.bias t.numel, api.SUCCESS⟩ : SdkEvent)
          ∈ castsFor Aux.bias (GroupNormKernel api T dev_ctx x scale bias epsilon groups
        data_layout y mean var).2.calls := by
        rw [(hb2 t ht hT).1]
        exact List.mem_singleton.mpr rfl
      exact List.mem_of_mem_filter hmem
  · intro hrank hcasts
    obtain ⟨e, he, a, ha⟩ :=
      group_norm_reached api T dev_ctx x scale bias epsilon groups
        data_layout y mean var hrank hcasts
    obtain ⟨sp, _, _, _, _, _, _, _, hg, heps, _⟩ :=
      group_norm_event_args api T dev_ctx x scale bias epsilon groups
        data_layout y mean var e he a ha
    exact ⟨e, he, a, ha, hg, heps⟩

/-- C3, witness: on the half-precision example with C = 4 and groups = 3 (3
does not divide 4) the last call is `group_norm` with N = 2, C = 4, L = 15,
the constant 1, groups 3, the given epsilon and the two cast buffers. -/
theorem GroupNormKernel_group_norm_arguments_witness :
    ¬ ((3 : Int) ∣ 4) ∧
    (GroupNormKernel (simApi 0 0) ScalarType.float16 0 demoX (some demoScale)
        (some demoBias) ⟨7⟩ 3 DataLayout.kNCHW demoY demoMean demoVar).2.calls.getLast?
      = some ⟨SdkCall.group_norm ⟨Ptr.addr 1, Ptr.addr 4, 2, 4, 15, 1, 3, ⟨7⟩,
          Ptr.addr 1000, Ptr.addr 1001, Ptr.addr 5, Ptr.addr 6, true⟩, 0⟩ ∧
    ∃ e ∈ (GroupNormKernel (simApi 0 0) ScalarType.float16 0 demoX (some demoScale)
        (some demoBias) ⟨7⟩ 3 DataLayout.kNCHW demoY demoMean demoVar).2.calls, ∃ a, e.call = SdkCall.group_norm a ∧
      a.groups = 3 ∧ a.epsilon = ⟨7⟩ :=
  ⟨by decide, by decide,
    (GroupNormKernel_group_norm_arguments (simApi 0 0) ScalarType.float16 0
      demoX (some demoScale) (some demoBias) ⟨7⟩ 3 DataLayout.kNCHW demoY
      demoMean demoVar).2 (by decide) (by decide)⟩

/-- C5 (amended): for each of scale and bias, no cast is made when the tensor
is absent or `T` is `float`, and at most one cast is made otherwise; the
number of casts is 0 when `T` is `float`. Whenever the kernel reaches the
`group_norm` call: an absent tensor is passed as a null buffer, a present one
with `T = float` as its own buffer, and a present one with `T` not `float` has
exactly one cast, over `numel` elements of the tensor into a temporary buffer
of `numel` floats taken from the guard, which is the buffer passed; the number
of casts is then 0 for `float` and the number of present tensors otherwise. -/
theorem GroupNormKernel_casts {σ : Type} (api : XpuApi σ)
    (T : ScalarType) (dev_ctx : σ) (x : DenseTensor)
    (scale bias : Option DenseTensor) (epsilon : F32) (groups : Int)
    (data_layout : DataLayout) (y mean var : DenseTensor) :
    ((scale = none ∨ is_same_float T = true) →
      castsFor Aux.scale (GroupNormKernel api T dev_ctx x scale bias epsilon groups
        data_layout y mean var).2.calls = []) ∧
    ((bias = none ∨ is_same_float T = true) →
      castsFor Aux.bias (GroupNormKernel api T dev_ctx x scale bias epsilon groups
        data_layout y mean var).2.calls = []) ∧
    (castsFor Aux.scale (GroupNormKernel api T dev_ctx x scale bias epsilon groups
        data_layout y mean var).2.calls).length ≤ 1 ∧
    (castsFor Aux.bias (GroupNormKernel api T dev_ctx x scale bias epsilon groups
        data_layout y mean var).2.calls).length ≤ 1 ∧
    (is_same_float T = true → castCount (GroupNormKernel api T dev_ctx x scale bias epsilon groups
        data_layout y mean var).2.calls = 0) ∧
    (∀ e ∈ (GroupNormKernel api T dev_ctx x scale bias epsilon groups
        data_layout y mean var).2.calls, ∀ a, e.call = SdkCall.group_norm a →
      (scale = none → a.scale = Ptr.null) ∧
      (∀ t, scale = some t → is_same_float T = true → a.scale = t.data) ∧
      (∀ t, scale = some t → is_same_float T = false →
        castsFor Aux.scale (GroupNormKernel api T dev_ctx x scale bias epsilon groups
        data_layout y mean var).2.calls
          = [⟨SdkCall.cast Aux.scale t.data a.scale t.numel, api.SUCCESS⟩] ∧
        (t.numel, a.scale) ∈ (GroupNormKernel api T dev_ctx x scale bias epsilon groups
        data_layout y mean var).2.allocs) ∧
      (bias = none → a.bias = Ptr.null) ∧
      (∀ t, bias = some t → is_same_float T = true → a.bias = t.data) ∧
      (∀ t, bias = some t → is_same_float T = false →
        castsFor Aux.bias (GroupNormKernel api T dev_ctx x scale bias epsilon groups
        data_layout y mean var).2.calls
          = [⟨SdkCall.cast Aux.bias t.data a.bias t.numel, api.SUCCESS⟩] ∧
        (t.numel, a.bias) ∈ (GroupNormKernel api T dev_ctx x scale bias epsilon groups
        data_layout y mean var).2.allocs) ∧
      castCount (GroupNormKernel api T dev_ctx x scale bias epsilon groups
        data_layout y mean var).2.calls
        = if is_same_float T = true then 0 else presentCount scale bias) := by
  obtain ⟨h1, h2, h3⟩ := casts_only_when_needed api T dev_ctx x scale bias
    epsilon groups data_layout y mean var
  obtain ⟨h4, h5⟩ := casts_at_most_once api T dev_ctx x scale bias
    epsilon groups data_layout y mean var
  refine ⟨h1, h2, h4, h5, h3, ?_⟩
  intro e he a ha
  obtain ⟨hs0, hs1, hs2⟩ :=
    group_norm_event_scale api T dev_ctx x scale bias epsilon groups
      data_layout y mean var e he a ha
  obtain ⟨hb0, hb1, hb2⟩ :=
    group_norm_event_bias api T dev_ctx x scale bias epsilon groups
      data_layout y mean var e he a ha
  exact ⟨hs0, hs1, hs2, hb0, hb1, hb2,
    group_norm_event_castCount api T dev_ctx x scale bias epsilon groups
      data_layout y mean var e he a ha⟩

/-- C5, witness: on the half-precision example both tensors are present; two
casts are made, each over 4 elements into a buffer taken from the guard. -/
theorem GroupNormKernel_casts_witness :
    castsFor Aux.scale (GroupNormKernel (simApi 0 0) ScalarType.float16 0 demoX (some demoScale)
        (some demoBias) ⟨7⟩ 3 DataLayout.kNCHW demoY demoMean demoVar).2.calls
      = [⟨SdkCall.cast Aux.scale (Ptr.addr 2) (Ptr.addr 1000) 4, 0⟩] ∧
    (GroupNormKernel (simApi 0 0) ScalarType.float16 0 demoX (some demoScale)
        (some demoBias) ⟨7⟩ 3 DataLayout.kNCHW demoY demoMean demoVar).2.allocs = [(4, Ptr.addr 1000), (4, Ptr.addr 1001)] ∧
    presentCount (some demoScale) (some demoBias) = 2 ∧
    castCount (GroupNormKernel (simApi 0 0) ScalarType.float16 0 demoX (some demoScale)
        (some demoBias) ⟨7⟩ 3 DataLayout.kNCHW demoY demoMean demoVar).2.calls
      = if is_same_float ScalarType.float16 = true then 0
        else presentCount (some demoScale) (some demoBias) :=
  ⟨by decide, by decide, by decide,
    ((GroupNormKernel_casts (simApi 0 0) ScalarType.float16 0 demoX
      (some demoScale) (some demoBias) ⟨7⟩ 3 DataLayout.kNCHW demoY demoMean
      demoVar).2.2.2.2.2
      ⟨SdkCall.group_norm ⟨Ptr.addr 1, Ptr.addr 4, 2, 4, 15, 1, 3, ⟨7⟩,
          Ptr.addr 1000, Ptr.addr 1001, Ptr.addr 5, Ptr.addr 6, true⟩, 0⟩
      (by decide) _ rfl).2.2.2.2.2.2⟩

/-- C5, counterexample: `T` is float16, scale and bias are both present, and
the SDK answers the cast of scale with status 1. One cast is made, not two,
and none for bias. -/
theorem GroupNormKernel_failed_cast_count :
    is_same_float ScalarType.float16 = false ∧
    presentCount (some demoScale) (some demoBias) = 2 ∧
    castCount (GroupNormKernel (simApi 1 0) ScalarType.float16 0 demoX (some demoScale)
        (some demoBias) ⟨7⟩ 3 DataLayout.kNCHW demoY demoMean demoVar).2.calls = 1 ∧
    castsFor Aux.bias (GroupNormKernel (simApi 1 0) ScalarType.float16 0 demoX (some demoScale)
        (some demoBias) ⟨7⟩ 3 DataLayout.kNCHW demoY demoMean demoVar).2.calls = [] ∧
    ¬ (castCount (GroupNormKernel (simApi 1 0) ScalarType.float16 0 demoX (some demoScale)
        (some demoBias) ⟨7⟩ 3 DataLayout.kNCHW demoY demoMean demoVar).2.calls
        = if is_same_float ScalarType.float16 = true then 0
          else presentCount (some demoScale) (some demoBias)) := by
  decide

end phi
